import Mathlib

/-!
Verification of the subscription action-resolution engine
(`src/core/src/filter/datatypes.rs`): a shallow embedding of the data model
and derivation functions, followed by theorems settling the specification
claims about delivery timing, validation, and the per-stage action folds.
-/

namespace Retina

/-- The abstraction levels for subscribable datatypes
(`Level` in `datatypes.rs`). -/
inductive Level where
  | Packet
  | Connection
  | Session
  | Static
deriving DecidableEq, Repr

/-- Modelled from the spec: `FilterLayer` (external pipeline-stage tag from
`filter/ptree.rs`, which is not included in the sources): the five ordered
stages plus the parallel `PacketDeliver` stage. -/
inductive FilterLayer where
  | PacketContinue
  | Packet
  | Protocol
  | Session
  | ConnectionDeliver
  | PacketDeliver
deriving DecidableEq, Repr

/-- Modelled from the spec: `Predicate` (external capability interface from
`filter/ast.rs`, which is not included in the sources): reports whether the
filter expression is structurally evaluable at each granularity. -/
structure Predicate where
  on_packet : Bool
  on_proto : Bool
  on_session : Bool
deriving DecidableEq, Repr

/-- Modelled from the spec: the individual `ActionData` flags written by this
core (external flag vocabulary, `filter/actions.rs` not included). -/
inductive ActionData where
  | PacketContinue
  | PacketTrack
  | PacketDeliver
  | ProtoProbe
  | ProtoFilter
  | SessionTrack
  | SessionDeliver
  | SessionFilter
  | ConnDeliver
  | UpdatePDU
  | ReassembledUpdatePDU
deriving DecidableEq, Repr

/-- Modelled from the spec: a fixed-width flag set over `ActionData`
(the external bitmask type), one Boolean per flag. -/
structure ActionDataSet where
  packetContinue : Bool
  packetTrack : Bool
  packetDeliver : Bool
  protoProbe : Bool
  protoFilter : Bool
  sessionTrack : Bool
  sessionDeliver : Bool
  sessionFilter : Bool
  connDeliver : Bool
  updatePDU : Bool
  reassembledUpdatePDU : Bool
deriving DecidableEq, Repr

/-- The empty flag set. -/
def ActionDataSet.empty : ActionDataSet :=
  ⟨false, false, false, false, false, false, false, false, false, false, false⟩

/-- Modelled from the spec: `|=` of a single flag into a flag set. -/
def ActionDataSet.add (s : ActionDataSet) (f : ActionData) : ActionDataSet :=
  match f with
  | .PacketContinue => { s with packetContinue := true }
  | .PacketTrack => { s with packetTrack := true }
  | .PacketDeliver => { s with packetDeliver := true }
  | .ProtoProbe => { s with protoProbe := true }
  | .ProtoFilter => { s with protoFilter := true }
  | .SessionTrack => { s with sessionTrack := true }
  | .SessionDeliver => { s with sessionDeliver := true }
  | .SessionFilter => { s with sessionFilter := true }
  | .ConnDeliver => { s with connDeliver := true }
  | .UpdatePDU => { s with updatePDU := true }
  | .ReassembledUpdatePDU => { s with reassembledUpdatePDU := true }

/-- Modelled from the spec: elementwise union of two flag sets. -/
def ActionDataSet.union (a b : ActionDataSet) : ActionDataSet :=
  ⟨a.packetContinue || b.packetContinue,
   a.packetTrack || b.packetTrack,
   a.packetDeliver || b.packetDeliver,
   a.protoProbe || b.protoProbe,
   a.protoFilter || b.protoFilter,
   a.sessionTrack || b.sessionTrack,
   a.sessionDeliver || b.sessionDeliver,
   a.sessionFilter || b.sessionFilter,
   a.connDeliver || b.connDeliver,
   a.updatePDU || b.updatePDU,
   a.reassembledUpdatePDU || b.reassembledUpdatePDU⟩

/-- Modelled from the spec: `Actions` (external): the `data` and
`terminal_actions` flag sets this core writes into. -/
structure Actions where
  data : ActionDataSet
  terminal_actions : ActionDataSet
deriving DecidableEq, Repr

/-- `Actions::new()`: both flag sets empty. -/
def Actions.new : Actions :=
  ⟨ActionDataSet.empty, ActionDataSet.empty⟩

/-- `actions.data |= f`. -/
def Actions.addData (a : Actions) (f : ActionData) : Actions :=
  { a with data := a.data.add f }

/-- `actions.terminal_actions |= f`. -/
def Actions.addTerminal (a : Actions) (f : ActionData) : Actions :=
  { a with terminal_actions := a.terminal_actions.add f }

/-- Modelled from the spec: `Actions::push` is elementwise union-merge. -/
def Actions.push (a b : Actions) : Actions :=
  ⟨a.data.union b.data, a.terminal_actions.union b.terminal_actions⟩

/-- `DataType` from `datatypes.rs`: one subscribable datatype and the
operations it requires. -/
structure DataType where
  level : Level
  needs_parse : Bool
  track_sessions : Bool
  needs_update : Bool
  needs_update_reassembled : Bool
  track_packets : Bool
  stream_protos : List String
  as_str : String
deriving DecidableEq, Repr

/-- `DataType::new_default_connection`. -/
def DataType.new_default_connection (as_str : String) : DataType :=
  ⟨Level.Connection, false, false, true, false, false, [], as_str⟩

/-- `DataType::new_default_session`. -/
def DataType.new_default_session (as_str : String) (stream_protos : List String) : DataType :=
  ⟨Level.Session, true, false, false, false, false, stream_protos, as_str⟩

/-- `DataType::new_default_packet`. -/
def DataType.new_default_packet (as_str : String) : DataType :=
  ⟨Level.Packet, false, false, false, false, false, [], as_str⟩

/-- `DataType::new_default_static`. -/
def DataType.new_default_static (as_str : String) : DataType :=
  ⟨Level.Static, false, false, false, false, false, [], as_str⟩

/-- `DataType::should_deliver`: is the current filter layer the earliest
where this datatype, with this filter, can be delivered. -/
def DataType.should_deliver (d : DataType) (filter_layer : FilterLayer)
    (pred : Predicate) (subscription_level : Level) : Bool :=
  match d.level with
  | .Packet =>
    match filter_layer with
    | .PacketContinue => pred.on_packet
    | .Protocol => pred.on_proto
    | .Session => pred.on_session
    | .PacketDeliver => true
    | .ConnectionDeliver | .Packet => false
  | .Connection =>
    match filter_layer with
    | .ConnectionDeliver => true
    | _ => false
  | .Session =>
    match filter_layer with
    | .Session => true
    | _ => false
  | .Static =>
    match subscription_level with
    | .Static =>
      match pred.on_packet with
      | true =>
        match filter_layer with
        | .Packet => true
        | _ => false
      | false =>
        match filter_layer with
        | .ConnectionDeliver => true
        | _ => false
    | _ => false

/-- `DataType::can_deliver`: whether, at the current filter layer, this
datatype with this filter predicate could be delivered. -/
def DataType.can_deliver (d : DataType) (filter_layer : FilterLayer)
    (pred : Predicate) : Bool :=
  match d.level with
  | .Packet =>
    match filter_layer with
    | .PacketContinue => pred.on_packet
    | .Protocol => pred.on_proto || pred.on_packet
    | _ => true
  | .Connection =>
    match filter_layer with
    | .ConnectionDeliver => true
    | _ => false
  | .Session =>
    match filter_layer with
    | .Session | .ConnectionDeliver => true
    | _ => false
  | .Static => true

/-- `MatchingActions`: actions required on terminal match (`if_matched`) vs
non-terminal match (`if_matching`) at one stage. -/
structure MatchingActions where
  if_matched : Actions
  if_matching : Actions
deriving DecidableEq, Repr

/-- `MatchingActions::new()`. -/
def MatchingActions.new : MatchingActions :=
  ⟨Actions.new, Actions.new⟩

/-- `MatchingActions::push`: elementwise merge of both components. -/
def MatchingActions.push (a b : MatchingActions) : MatchingActions :=
  ⟨a.if_matched.push b.if_matched, a.if_matching.push b.if_matching⟩

/-- `actions.if_matched.data |= f`. -/
def MatchingActions.matchedData (m : MatchingActions) (f : ActionData) : MatchingActions :=
  { m with if_matched := m.if_matched.addData f }

/-- `actions.if_matched.terminal_actions |= f`. -/
def MatchingActions.matchedTerminal (m : MatchingActions) (f : ActionData) : MatchingActions :=
  { m with if_matched := m.if_matched.addTerminal f }

/-- `actions.if_matching.data |= f`. -/
def MatchingActions.matchingData (m : MatchingActions) (f : ActionData) : MatchingActions :=
  { m with if_matching := m.if_matching.addData f }

/-- Per-level Boolean tests, mirroring the `matches!(…, Level::Packet)`
checks in the source. -/
def Level.isPacket : Level → Bool
  | .Packet => true
  | _ => false

/-- `matches!(…, Level::Connection)`. -/
def Level.isConnection : Level → Bool
  | .Connection => true
  | _ => false

/-- `matches!(…, Level::Session)`. -/
def Level.isSession : Level → Bool
  | .Session => true
  | _ => false

/-- `matches!(…, Level::Static)`. -/
def Level.isStatic : Level → Bool
  | .Static => true
  | _ => false

/-- Helper `DataType::needs_update` (the method; adds `UpdatePDU` /
`ReassembledUpdatePDU` when the corresponding fields are set). -/
def DataType.needs_update_actions (d : DataType) (m : MatchingActions) : MatchingActions :=
  let m := if d.needs_update then
      ((m.matchedData .UpdatePDU).matchedTerminal .UpdatePDU).matchingData .UpdatePDU
    else m
  if d.needs_update_reassembled then
    ((m.matchedData .ReassembledUpdatePDU).matchedTerminal .ReassembledUpdatePDU).matchingData
      .ReassembledUpdatePDU
  else m

/-- Helper `DataType::track_packets` (the method). -/
def DataType.track_packets_actions (d : DataType) (m : MatchingActions) : MatchingActions :=
  if d.track_packets then
    ((m.matchedData .PacketTrack).matchedTerminal .PacketTrack).matchingData .PacketTrack
  else m

/-- Helper `DataType::track_sessions` (the method, used by `proto_filter`
and `session_filter`; note it reads `level` and `needs_parse`, not the
`track_sessions` field). -/
def DataType.track_sessions_actions (d : DataType) (m : MatchingActions)
    (sub_level : Level) : MatchingActions :=
  if sub_level.isConnection && (d.level.isSession || d.needs_parse) then
    m.matchedData .SessionTrack
  else m

/-- Helper `DataType::conn_deliver`. -/
def DataType.conn_deliver_actions (_d : DataType) (sub_level : Level)
    (m : MatchingActions) : MatchingActions :=
  if sub_level.isConnection then
    (m.matchedData .ConnDeliver).matchedTerminal .ConnDeliver
  else m

/-- The internal assertion guarding the Packet-level branches of
`DataType::packet_filter` / `proto_filter` / `session_filter`:
`assert!(matches!(sub_level, Level::Packet))` is reached only when
`d.level == Packet`, so it holds iff a Packet-level datatype implies a
Packet-level subscription. -/
def DataType.packet_stage_assert (d : DataType) (sub_level : Level) : Prop :=
  d.level = Level.Packet → sub_level = Level.Packet

/-- `DataType::packet_filter`: actions for the first packet in a connection.
(The Packet-level branch carries `assert!(matches!(sub_level, Level::Packet))`
in the source, captured by `DataType.packet_stage_assert`.) -/
def DataType.packet_filter (d : DataType) (sub_level : Level) : MatchingActions :=
  let actions := MatchingActions.new
  let actions := if d.level.isPacket then actions.matchingData .PacketTrack else actions
  let actions := d.needs_update_actions actions
  let actions := d.track_packets_actions actions
  let actions := d.conn_deliver_actions sub_level actions
  let actions := if d.needs_parse then
      let a := (actions.matchedData .ProtoProbe).matchedTerminal .ProtoProbe
      if sub_level.isConnection then
        (a.matchedData .SessionTrack).matchedTerminal .SessionTrack
      else a
    else actions
  if d.level.isSession then
    (actions.matchedData .SessionDeliver).matchedTerminal .SessionDeliver
  else actions

/-- `DataType::proto_filter`: actions when the protocol is identified.
(The Packet-level branch carries the same internal assertion.) -/
def DataType.proto_filter (d : DataType) (sub_level : Level) : MatchingActions :=
  let actions := MatchingActions.new
  let actions := if d.level.isPacket then
      ((actions.matchedData .PacketDeliver).matchedTerminal .PacketDeliver).matchingData
        .PacketTrack
    else actions
  let actions := d.needs_update_actions actions
  let actions := d.track_packets_actions actions
  let actions := d.track_sessions_actions actions sub_level
  let actions := d.conn_deliver_actions sub_level actions
  if sub_level.isSession then actions.matchedData .SessionDeliver else actions

/-- `DataType::session_filter`: actions when the session is fully parsed;
`if_matching` is reset to empty (last filter applied).
(The Packet-level branch carries the same internal assertion.) -/
def DataType.session_filter (d : DataType) (sub_level : Level) : MatchingActions :=
  let actions := MatchingActions.new
  let actions := if d.level.isPacket then
      (actions.matchedData .PacketDeliver).matchedTerminal .PacketDeliver
    else actions
  let actions := d.needs_update_actions actions
  let actions := d.track_packets_actions actions
  let actions := d.track_sessions_actions actions sub_level
  let actions := d.conn_deliver_actions sub_level actions
  ⟨actions.if_matched, Actions.new⟩

/-- `SubscriptionSpec`: a filter, a callback, and one or more datatypes. -/
structure SubscriptionSpec where
  datatypes : List DataType
  filter : String
  callback : String
  level : Level
deriving DecidableEq, Repr

/-- `SubscriptionSpec::new`: no datatypes, level starts at `Static`. -/
def SubscriptionSpec.new (filt cb : String) : SubscriptionSpec :=
  ⟨[], filt, cb, Level.Static⟩

/-- `SubscriptionSpec::update_level` as a pure function of the current and
next level (the source mutates `self.level`; the final else-branch leaves
the current level unchanged). -/
def update_level (current next : Level) : Level :=
  if current.isConnection || next.isConnection then Level.Connection
  else if current.isSession || next.isSession then Level.Session
  else if current.isPacket || next.isPacket then Level.Packet
  else current

/-- `SubscriptionSpec::add_datatype`: update the level, then append. -/
def SubscriptionSpec.add_datatype (s : SubscriptionSpec) (d : DataType) : SubscriptionSpec :=
  { s with level := update_level s.level d.level, datatypes := s.datatypes ++ [d] }

/-- A `SubscriptionSpec` built through the documented lifecycle:
`SubscriptionSpec::new` followed by one `add_datatype` per datatype. -/
def SubscriptionSpec.from_datatypes (filt cb : String) (dts : List DataType) : SubscriptionSpec :=
  dts.foldl (fun s d => s.add_datatype d) (SubscriptionSpec.new filt cb)

/-- `SubscriptionSpec::validate_spec`: `true` iff none of the source's
assertions fires (the source panics on violation). -/
def SubscriptionSpec.validate_spec (s : SubscriptionSpec) : Bool :=
  (if s.level.isPacket then
    (if s.datatypes.length > 1 then
      decide ((s.datatypes.countP fun d => d.level.isPacket) = 1)
        && decide (s.datatypes.length - 1 ≤ (s.datatypes.countP fun d => d.level.isStatic))
    else true)
  else
    decide ((s.datatypes.countP fun d => d.level.isPacket) = 0))
  && decide ((s.datatypes.countP fun d => d.level.isSession) ≤ 1)

/-- `SubscriptionSpec::as_str`: `"callback(datatype1, datatype2, …)"`. -/
def SubscriptionSpec.as_str (s : SubscriptionSpec) : String :=
  s.callback ++ "(" ++ String.intercalate ", " (s.datatypes.map (fun d => d.as_str)) ++ ")"

/-- `SubscriptionSpec::should_deliver`: some datatype reaches its natural
delivery point and every datatype's data is obtainable. -/
def SubscriptionSpec.should_deliver (s : SubscriptionSpec) (filter_layer : FilterLayer)
    (pred : Predicate) : Bool :=
  (s.datatypes.any fun d => d.should_deliver filter_layer pred s.level)
    && (s.datatypes.all fun d => d.can_deliver filter_layer pred)

/-- `SubscriptionSpec::packet_continue`. -/
def SubscriptionSpec.packet_continue (s : SubscriptionSpec) : MatchingActions :=
  match s.level with
  | .Packet => ⟨Actions.new, Actions.new.addData .PacketContinue⟩
  | _ => ⟨Actions.new.addData .PacketContinue, Actions.new.addData .PacketContinue⟩

/-- `SubscriptionSpec::packet_filter`: fold the datatypes' `packet_filter`,
then always continue to the protocol filter on partial match. -/
def SubscriptionSpec.packet_filter (s : SubscriptionSpec) : MatchingActions :=
  let actions := s.datatypes.foldl
    (fun acc d => acc.push (d.packet_filter s.level)) MatchingActions.new
  actions.matchingData .ProtoFilter

/-- `SubscriptionSpec::proto_filter`: fold the datatypes' `proto_filter`,
add `ConnDeliver` bookkeeping for Static-level subscriptions, and continue
to the session filter on partial match. -/
def SubscriptionSpec.proto_filter (s : SubscriptionSpec) : MatchingActions :=
  let actions := s.datatypes.foldl
    (fun acc d => acc.push (d.proto_filter s.level)) MatchingActions.new
  let actions := if s.level.isStatic then
      (actions.matchedData .ConnDeliver).matchedTerminal .ConnDeliver
    else actions
  actions.matchingData .SessionFilter

/-- `SubscriptionSpec::session_filter`: fold the datatypes' `session_filter`
and add `ConnDeliver` bookkeeping for Static-level subscriptions. -/
def SubscriptionSpec.session_filter (s : SubscriptionSpec) : MatchingActions :=
  let actions := s.datatypes.foldl
    (fun acc d => acc.push (d.session_filter s.level)) MatchingActions.new
  if s.level.isStatic then
    (actions.matchedData .ConnDeliver).matchedTerminal .ConnDeliver
  else actions

/-- `SubscriptionSpec::with_term_filter`: per-stage actions on terminal
match. -/
def SubscriptionSpec.with_term_filter (s : SubscriptionSpec) (filter_layer : FilterLayer)
    (pred : Predicate) : Actions :=
  match filter_layer with
  | .PacketContinue => s.packet_continue.if_matched
  | .Packet => s.packet_filter.if_matched
  | .Protocol => s.proto_filter.if_matched
  | .Session =>
    let actions := s.session_filter.if_matched
    if s.level.isConnection && pred.on_session then actions.addData .SessionTrack
    else actions
  | .ConnectionDeliver | .PacketDeliver => Actions.new

/-- `SubscriptionSpec::with_nonterm_filter`: per-stage actions on
non-terminal (partial) match. -/
def SubscriptionSpec.with_nonterm_filter (s : SubscriptionSpec)
    (filter_layer : FilterLayer) : Actions :=
  match filter_layer with
  | .PacketContinue => s.packet_continue.if_matching
  | .Packet => s.packet_filter.if_matching
  | .Protocol => s.proto_filter.if_matching
  | .Session => s.session_filter.if_matching
  | .ConnectionDeliver | .PacketDeliver => Actions.new

/-- The five ordered decision stages of the pipeline for one connection. -/
def delivery_stages : List FilterLayer :=
  [.PacketContinue, .Packet, .Protocol, .Session, .ConnectionDeliver]

/-- The ordered stages at which a subscription's `should_deliver` fires for
a given predicate. -/
def deliverStages (s : SubscriptionSpec) (pred : Predicate) : List FilterLayer :=
  delivery_stages.filter fun fl => s.should_deliver fl pred

/-- A predicate that is evaluable at exactly one granularity (exactly one of
`on_packet`, `on_proto`, `on_session` reports true). -/
def Predicate.exactly_one_layer (p : Predicate) : Bool :=
  (p.on_packet && !p.on_proto && !p.on_session)
    || (!p.on_packet && p.on_proto && !p.on_session)
    || (!p.on_packet && !p.on_proto && p.on_session)

/-- Delivery-precedence rank of a level: `Static < Packet < Session <
Connection`. -/
def Level.rank : Level → Nat
  | .Static => 0
  | .Packet => 1
  | .Session => 2
  | .Connection => 3

/-- The §4.1 decision table for `should_deliver`, following the wording of
the specification row by row. -/
def should_deliver_table (lvl : Level) (fl : FilterLayer) (pred : Predicate)
    (sub : Level) : Bool :=
  match lvl with
  | .Packet =>
    (decide (fl = .PacketContinue) && pred.on_packet)
      || (decide (fl = .Protocol) && pred.on_proto)
      || (decide (fl = .Session) && pred.on_session)
      || decide (fl = .PacketDeliver)
  | .Connection => decide (fl = .ConnectionDeliver)
  | .Session => decide (fl = .Session)
  | .Static =>
    if sub = .Static then
      if pred.on_packet then decide (fl = .Packet) else decide (fl = .ConnectionDeliver)
    else false

/-- The §4.1 decision table for `can_deliver`, following the wording of the
specification (for the Packet row, every stage not named by the table text
is a "later" stage and so reads true). -/
def can_deliver_table (lvl : Level) (fl : FilterLayer) (pred : Predicate) : Bool :=
  match lvl with
  | .Packet =>
    match fl with
    | .PacketContinue => pred.on_packet
    | .Protocol => pred.on_proto || pred.on_packet
    | _ => true
  | .Connection => decide (fl = .ConnectionDeliver)
  | .Session => decide (fl = .Session) || decide (fl = .ConnectionDeliver)
  | .Static => true

/-- The sticky-precedence table for `update_level` as the specification
words it: Connection beats Session beats Packet beats Static. -/
def update_level_table (current next : Level) : Level :=
  if current = .Connection ∨ next = .Connection then .Connection
  else if current = .Session ∨ next = .Session then .Session
  else if current = .Packet ∨ next = .Packet then .Packet
  else .Static

/-- The three §3 structural invariants exactly as the specification words
them: (1) a Packet-level subscription has at most one Packet-level datatype
and all its other datatypes are Static; (2) a non-Packet subscription has no
Packet-level datatype; (3) at most one Session-level datatype overall. -/
def spec_structural_invariants (s : SubscriptionSpec) : Prop :=
  (s.level = .Packet →
    (s.datatypes.countP fun d => d.level.isPacket) ≤ 1
      ∧ ∀ d ∈ s.datatypes, d.level = .Packet ∨ d.level = .Static)
  ∧ (s.level ≠ .Packet → ∀ d ∈ s.datatypes, d.level ≠ .Packet)
  ∧ (s.datatypes.countP fun d => d.level.isSession) ≤ 1

/-- The invariants `validate_spec` actually enforces: the Packet-level
checks only apply to subscriptions with more than one datatype, and a
multi-datatype Packet-level subscription must contain exactly one
Packet-level datatype. -/
def validate_invariants_amended (s : SubscriptionSpec) : Prop :=
  (s.level = .Packet → 1 < s.datatypes.length →
    (s.datatypes.countP fun d => d.level.isPacket) = 1
      ∧ ∀ d ∈ s.datatypes, d.level = .Packet ∨ d.level = .Static)
  ∧ (s.level ≠ .Packet → ∀ d ∈ s.datatypes, d.level ≠ .Packet)
  ∧ (s.datatypes.countP fun d => d.level.isSession) ≤ 1

/-! ### Basic lemmas about levels, the level fold, and list combinators -/

theorem Level.isPacket_iff (l : Level) : l.isPacket = true ↔ l = .Packet := by
  cases l <;> simp [Level.isPacket]

theorem Level.isStatic_iff (l : Level) : l.isStatic = true ↔ l = .Static := by
  cases l <;> simp [Level.isStatic]

theorem Level.isSession_iff (l : Level) : l.isSession = true ↔ l = .Session := by
  cases l <;> simp [Level.isSession]

theorem Level.isConnection_iff (l : Level) : l.isConnection = true ↔ l = .Connection := by
  cases l <;> simp [Level.isConnection]

theorem Level.rank_le_iff (a b : Level) : a.rank ≤ b.rank ↔ ¬ (b.rank < a.rank) := by
  omega

theorem update_level_self_or (a b : Level) :
    update_level a b = a ∨ update_level a b = b := by
  cases a <;> cases b <;> decide

theorem rank_update_level (a b : Level) :
    (update_level a b).rank = max a.rank b.rank := by
  cases a <;> cases b <;> decide

theorem rank_le_update_level_left (a b : Level) :
    a.rank ≤ (update_level a b).rank := by
  cases a <;> cases b <;> decide

theorem update_level_rightcomm (a x y : Level) :
    update_level (update_level a x) y = update_level (update_level a y) x := by
  cases a <;> cases x <;> cases y <;> decide

theorem foldl_add_datatype_datatypes (dts : List DataType) (s : SubscriptionSpec) :
    (dts.foldl (fun sp d => sp.add_datatype d) s).datatypes = s.datatypes ++ dts := by
  induction dts generalizing s with
  | nil => simp
  | cons d t ih =>
    rw [List.foldl_cons, ih]
    simp [SubscriptionSpec.add_datatype]

theorem from_datatypes_datatypes (filt cb : String) (dts : List DataType) :
    (SubscriptionSpec.from_datatypes filt cb dts).datatypes = dts := by
  simp [SubscriptionSpec.from_datatypes, foldl_add_datatype_datatypes, SubscriptionSpec.new]

theorem foldl_add_datatype_level (dts : List DataType) (s : SubscriptionSpec) :
    (dts.foldl (fun sp d => sp.add_datatype d) s).level
      = (dts.map (fun d => d.level)).foldl update_level s.level := by
  induction dts generalizing s with
  | nil => simp
  | cons d t ih =>
    rw [List.foldl_cons, ih]
    simp [SubscriptionSpec.add_datatype]

theorem from_datatypes_level (filt cb : String) (dts : List DataType) :
    (SubscriptionSpec.from_datatypes filt cb dts).level
      = (dts.map (fun d => d.level)).foldl update_level Level.Static := by
  simp [SubscriptionSpec.from_datatypes, foldl_add_datatype_level, SubscriptionSpec.new]

theorem foldl_update_level_self_or_mem (ls : List Level) (s : Level) :
    ls.foldl update_level s = s ∨ ls.foldl update_level s ∈ ls := by
  induction ls generalizing s with
  | nil => exact Or.inl rfl
  | cons h t ih =>
    rcases ih (update_level s h) with h1 | h1
    · rcases update_level_self_or s h with h2 | h2
      · exact Or.inl (by rw [List.foldl_cons, h1, h2])
      · exact Or.inr (by rw [List.foldl_cons, h1, h2]; exact List.mem_cons_self h t)
    · exact Or.inr (List.mem_cons_of_mem h h1)

theorem rank_le_foldl_update_level (ls : List Level) (s : Level) :
    s.rank ≤ (ls.foldl update_level s).rank := by
  induction ls generalizing s with
  | nil => simp
  | cons h t ih =>
    calc s.rank ≤ (update_level s h).rank := rank_le_update_level_left s h
      _ ≤ _ := ih (update_level s h)

theorem rank_mem_le_foldl_update_level (ls : List Level) (s : Level) :
    ∀ l ∈ ls, l.rank ≤ (ls.foldl update_level s).rank := by
  induction ls generalizing s with
  | nil => simp
  | cons h t ih =>
    intro l hl
    rcases List.mem_cons.mp hl with h1 | h1
    · subst h1
      calc l.rank ≤ (update_level s l).rank := by rw [rank_update_level]; omega
        _ ≤ _ := rank_le_foldl_update_level t (update_level s l)
    · exact ih (update_level s h) l h1

theorem any_true_of_mem {α : Type} {p : α → Bool} {l : List α} {a : α}
    (h : a ∈ l) (hp : p a = true) : l.any p = true :=
  List.any_eq_true.mpr ⟨a, h, hp⟩

theorem all_false_of_mem {α : Type} {p : α → Bool} {l : List α} {a : α}
    (h : a ∈ l) (hp : p a = false) : l.all p = false := by
  cases hall : l.all p with
  | false => rfl
  | true =>
    have := List.all_eq_true.mp hall a h
    rw [hp] at this
    exact absurd this (by simp)

theorem any_false_of_forall {α : Type} {p : α → Bool} {l : List α}
    (h : ∀ a ∈ l, p a = false) : l.any p = false := by
  cases hany : l.any p with
  | false => rfl
  | true =>
    obtain ⟨a, ha, hpa⟩ := List.any_eq_true.mp hany
    rw [h a ha] at hpa
    exact absurd hpa (by simp)

theorem foldl_rightcomm_perm {α β : Type} (f : β → α → β)
    (hf : ∀ b x y, f (f b x) y = f (f b y) x) {l1 l2 : List α}
    (hp : l1.Perm l2) : ∀ b, l1.foldl f b = l2.foldl f b := by
  induction hp with
  | nil => intro b; rfl
  | cons x _ ih => intro b; simp only [List.foldl_cons]; exact ih (f b x)
  | swap x y l => intro b; simp only [List.foldl_cons]; rw [hf]
  | trans _ _ ih1 ih2 => intro b; rw [ih1, ih2]

/-! ### The action-merge algebra -/

theorem ActionDataSet.union_assoc (a b c : ActionDataSet) :
    (a.union b).union c = a.union (b.union c) := by
  cases a; cases b; cases c
  simp [ActionDataSet.union, Bool.or_assoc]

theorem ActionDataSet.union_comm (a b : ActionDataSet) :
    a.union b = b.union a := by
  cases a; cases b
  simp [ActionDataSet.union, Bool.or_comm]

theorem actions_push_assoc (a b c : Actions) :
    (a.push b).push c = a.push (b.push c) := by
  simp [Actions.push, ActionDataSet.union_assoc]

theorem actions_push_comm (a b : Actions) : a.push b = b.push a := by
  simp [Actions.push, ActionDataSet.union_comm a.data, ActionDataSet.union_comm a.terminal_actions]

theorem MatchingActions.push_assoc (a b c : MatchingActions) :
    (a.push b).push c = a.push (b.push c) := by
  simp [MatchingActions.push, actions_push_assoc]

theorem MatchingActions.push_comm (a b : MatchingActions) : a.push b = b.push a := by
  simp [MatchingActions.push, actions_push_comm a.if_matched, actions_push_comm a.if_matching]

theorem MatchingActions.push_rightcomm (m p q : MatchingActions) :
    (m.push p).push q = (m.push q).push p := by
  rw [MatchingActions.push_assoc, MatchingActions.push_comm p q, MatchingActions.push_assoc]

theorem MatchingActions.matchedData_matching (m : MatchingActions) (f : ActionData) :
    (m.matchedData f).if_matching = m.if_matching := rfl

theorem MatchingActions.matchedTerminal_matching (m : MatchingActions) (f : ActionData) :
    (m.matchedTerminal f).if_matching = m.if_matching := rfl

theorem Actions.push_new_new : Actions.new.push Actions.new = Actions.new := rfl

/-! ### Counting lemmas and validation extraction -/

theorem countP_or_disjoint {α : Type} (p q : α → Bool)
    (h : ∀ a, ¬(p a = true ∧ q a = true)) (l : List α) :
    l.countP (fun a => p a || q a) = l.countP p + l.countP q := by
  induction l with
  | nil => simp
  | cons a t ih =>
    cases hp : p a <;> cases hq : q a
    · simp [List.countP_cons, hp, hq, ih]
    · simp [List.countP_cons, hp, hq, ih]; omega
    · simp [List.countP_cons, hp, hq, ih]; omega
    · exact absurd ⟨hp, hq⟩ (h a)

theorem validate_spec_unfold (s : SubscriptionSpec) :
    s.validate_spec = true ↔
      ((s.level.isPacket = true →
          1 < s.datatypes.length →
          (s.datatypes.countP fun d => d.level.isPacket) = 1
            ∧ s.datatypes.length - 1 ≤ (s.datatypes.countP fun d => d.level.isStatic))
        ∧ (s.level.isPacket = false → (s.datatypes.countP fun d => d.level.isPacket) = 0)
        ∧ (s.datatypes.countP fun d => d.level.isSession) ≤ 1) := by
  cases hp : s.level.isPacket <;>
    by_cases hlen : 1 < s.datatypes.length <;>
      simp [SubscriptionSpec.validate_spec, hp, hlen, and_assoc]

theorem validate_no_packet {s : SubscriptionSpec} (h : s.validate_spec = true)
    (hl : s.level ≠ .Packet) : ∀ d ∈ s.datatypes, d.level ≠ .Packet := by
  intro d hd
  have hp : s.level.isPacket = false := by
    cases hx : s.level.isPacket
    · rfl
    · exact absurd ((Level.isPacket_iff s.level).mp hx) hl
  have hz := ((validate_spec_unfold s).mp h).2.1 hp
  have := List.countP_eq_zero.mp hz d hd
  simpa [Level.isPacket_iff] using this

theorem session_fold_matching (l : List DataType) (L : Level) (acc : MatchingActions)
    (h : acc.if_matching = Actions.new) :
    (l.foldl (fun acc d => acc.push (d.session_filter L)) acc).if_matching = Actions.new := by
  induction l generalizing acc with
  | nil => exact h
  | cons d t ih =>
    rw [List.foldl_cons]
    apply ih
    show (acc.push (d.session_filter L)).if_matching = Actions.new
    have hd : (d.session_filter L).if_matching = Actions.new := rfl
    simp [MatchingActions.push, hd, h, Actions.push_new_new]

theorem packet_static_disjoint (d : DataType) :
    ¬(d.level.isPacket = true ∧ d.level.isStatic = true) := by
  rintro ⟨hp, hs⟩
  rw [Level.isPacket_iff] at hp
  rw [Level.isStatic_iff] at hs
  rw [hp] at hs
  cases hs

theorem static_count_iff (dts : List DataType)
    (h1 : (dts.countP fun d => d.level.isPacket) = 1) (hlen : 1 ≤ dts.length) :
    (dts.length - 1 ≤ dts.countP fun d => d.level.isStatic)
      ↔ ∀ d ∈ dts, d.level = .Packet ∨ d.level = .Static := by
  have hsum := countP_or_disjoint (fun d => d.level.isPacket) (fun d => d.level.isStatic)
    packet_static_disjoint dts
  have hle : (dts.countP fun d => d.level.isPacket || d.level.isStatic) ≤ dts.length :=
    List.countP_le_length _
  constructor
  · intro h2
    have hall : (dts.countP fun d => d.level.isPacket || d.level.isStatic) = dts.length := by
      omega
    intro d hd
    have := List.countP_eq_length.mp hall d hd
    rcases Bool.or_eq_true_iff.mp this with h | h
    · exact Or.inl ((Level.isPacket_iff _).mp h)
    · exact Or.inr ((Level.isStatic_iff _).mp h)
  · intro hall
    have heq : (dts.countP fun d => d.level.isPacket || d.level.isStatic) = dts.length := by
      apply List.countP_eq_length.mpr
      intro d hd
      rcases hall d hd with h | h <;> simp [h, Level.isPacket, Level.isStatic]
    omega

theorem level_ne_packet_of_isPacket_false {l : Level} (h : l.isPacket = false) :
    l ≠ .Packet := by
  intro he
  rw [he] at h
  cases h

theorem isPacket_false_of_ne {l : Level} (h : l ≠ .Packet) : l.isPacket = false := by
  cases hx : l.isPacket
  · rfl
  · exact absurd ((Level.isPacket_iff l).mp hx) h

/-! ### Claim theorems -/

/-- Claim C2: for every datatype level, every filter layer, every
predicate-capability combination, and every subscription level,
`DataType.should_deliver` and `DataType.can_deliver` return exactly the
values of the §4.1 decision tables. -/
theorem C2_decision_tables :
    ∀ (d : DataType) (fl : FilterLayer) (pred : Predicate) (sub : Level),
      d.should_deliver fl pred sub = should_deliver_table d.level fl pred sub
        ∧ d.can_deliver fl pred = can_deliver_table d.level fl pred := by
  intro d fl pred sub
  rcases d with ⟨l, np, ts, nu, nur, tp, sp, str⟩
  rcases pred with ⟨p, q, r⟩
  cases l <;> cases fl <;> cases sub <;> cases p <;> cases q <;> cases r <;> exact ⟨rfl, rfl⟩

/-- Claim C4: `update_level` implements the sticky precedence
`Connection > Session > Packet > Static` as worded by the specification;
consequently the subscription level is monotonically non-decreasing across
any sequence of `add_datatype` calls, and independent of arrival order. -/
theorem C4_update_level_sticky :
    (∀ current next : Level, update_level current next = update_level_table current next)
      ∧ (∀ (s : SubscriptionSpec) (dts : List DataType),
          s.level.rank ≤ (dts.foldl (fun sp d => sp.add_datatype d) s).level.rank)
      ∧ (∀ l1 l2 : List DataType, l1.Perm l2 → ∀ s : SubscriptionSpec,
          (l1.foldl (fun sp d => sp.add_datatype d) s).level
            = (l2.foldl (fun sp d => sp.add_datatype d) s).level) := by
  refine ⟨?_, ?_, ?_⟩
  · intro c n
    cases c <;> cases n <;> decide
  · intro s dts
    rw [foldl_add_datatype_level]
    exact rank_le_foldl_update_level _ _
  · intro l1 l2 hp s
    rw [foldl_add_datatype_level, foldl_add_datatype_level]
    exact foldl_rightcomm_perm update_level update_level_rightcomm
      (hp.map fun d => d.level) s.level

/-- Witness for C4: a concrete permuted pair of datatype lists yields the
same subscription level. -/
theorem C4_update_level_sticky_witness :
    ([DataType.new_default_session "S" [], DataType.new_default_connection "C"].foldl
        (fun sp d => sp.add_datatype d) (SubscriptionSpec.new "f" "cb")).level
      = ([DataType.new_default_connection "C", DataType.new_default_session "S" []].foldl
        (fun sp d => sp.add_datatype d) (SubscriptionSpec.new "f" "cb")).level :=
  C4_update_level_sticky.2.2 _ _
    (List.Perm.swap (DataType.new_default_connection "C")
      (DataType.new_default_session "S" []) [])
    (SubscriptionSpec.new "f" "cb")

/-- Claim C5: `with_term_filter` maps each stage to the `if_matched`
component of the corresponding stage fold, adds `SessionTrack` at the
Session stage exactly when the aggregate level is Connection and the
predicate is session-evaluable, and returns the empty action set at the two
terminal delivery stages. -/
theorem C5_with_term_filter_mapping :
    ∀ (s : SubscriptionSpec) (pred : Predicate),
      s.with_term_filter .PacketContinue pred = s.packet_continue.if_matched
        ∧ s.with_term_filter .Packet pred = s.packet_filter.if_matched
        ∧ s.with_term_filter .Protocol pred = s.proto_filter.if_matched
        ∧ s.with_term_filter .Session pred
            = (if s.level = .Connection ∧ pred.on_session = true then
                s.session_filter.if_matched.addData .SessionTrack
              else s.session_filter.if_matched)
        ∧ s.with_term_filter .ConnectionDeliver pred = Actions.new
        ∧ s.with_term_filter .PacketDeliver pred = Actions.new := by
  intro s pred
  refine ⟨rfl, rfl, rfl, ?_, rfl, rfl⟩
  have hiff : s.level.isConnection = true ↔ s.level = .Connection :=
    Level.isConnection_iff s.level
  by_cases h : s.level = .Connection ∧ pred.on_session = true
  · simp [SubscriptionSpec.with_term_filter, h.1, h.2, h, Level.isConnection]
  · have h2 : (s.level.isConnection && pred.on_session) = false := by
      cases hc : s.level.isConnection
      · simp
      · cases ho : pred.on_session
        · simp
        · exact absurd ⟨hiff.mp hc, ho⟩ h
    simp [SubscriptionSpec.with_term_filter, h2, h]

/-- Claim C7: for every subscription shape, the subscription-level
`session_filter` has an empty `if_matching` component. -/
theorem C7_session_filter_matching_empty :
    ∀ s : SubscriptionSpec, s.session_filter.if_matching = Actions.new := by
  intro s
  have hfold := session_fold_matching s.datatypes s.level MatchingActions.new rfl
  show (SubscriptionSpec.session_filter s).if_matching = Actions.new
  unfold SubscriptionSpec.session_filter
  cases hst : s.level.isStatic <;>
    simp [hst, MatchingActions.matchedData_matching,
      MatchingActions.matchedTerminal_matching, hfold]

/-- Claim C9: two datatypes differing only in the `track_sessions` field
have identical derivation outputs: `should_deliver`, `can_deliver`,
`packet_filter`, `proto_filter` and `session_filter` never read it. -/
theorem C9_track_sessions_unread :
    ∀ (d : DataType) (b : Bool) (fl : FilterLayer) (pred : Predicate) (sub : Level),
      d.should_deliver fl pred sub
          = ({ d with track_sessions := b } : DataType).should_deliver fl pred sub
        ∧ d.can_deliver fl pred = ({ d with track_sessions := b } : DataType).can_deliver fl pred
        ∧ d.packet_filter sub = ({ d with track_sessions := b } : DataType).packet_filter sub
        ∧ d.proto_filter sub = ({ d with track_sessions := b } : DataType).proto_filter sub
        ∧ d.session_filter sub = ({ d with track_sessions := b } : DataType).session_filter sub := by
  intro d b fl pred sub
  rcases d with ⟨l, np, ts, nu, nur, tp, sp, str⟩
  exact ⟨rfl, rfl, rfl, rfl, rfl⟩

/-- Claim C10: a subscription whose `level` field is `Packet` and which
holds at most one datatype always passes `validate_spec`, whatever that
datatype's level: the Packet-level checks run only with more than one
datatype, and the Session count check is bounded by the length. -/
theorem C10_single_datatype_packet_level_validates (s : SubscriptionSpec)
    (hl : s.level = .Packet) (hlen : s.datatypes.length ≤ 1) :
    s.validate_spec = true := by
  rw [validate_spec_unfold]
  refine ⟨?_, ?_, ?_⟩
  · intro _ hgt
    omega
  · intro hfalse
    rw [hl] at hfalse
    exact absurd hfalse (by simp [Level.isPacket])
  · calc (s.datatypes.countP fun d => d.level.isSession) ≤ s.datatypes.length :=
        List.countP_le_length _
    _ ≤ 1 := hlen

/-- Witness for C10: a Packet-level subscription holding a single
Connection-level datatype is accepted. -/
theorem C10_single_datatype_packet_level_validates_witness :
    (SubscriptionSpec.mk [DataType.new_default_connection "Connection"] "f" "cb"
      Level.Packet).validate_spec = true :=
  C10_single_datatype_packet_level_validates _ rfl (by decide)

/-- Claim C6: in any subscription built through `new` and `add_datatype`
that passes `validate_spec`, the internal Packet-level assertion of the
per-datatype stage methods can never fire when they are invoked with
`sub_level = spec.level`: every Packet-level datatype forces the aggregate
level to be `Packet`. -/
theorem C6_packet_assert_safe (filt cb : String) (dts : List DataType)
    (s : SubscriptionSpec) (_hs : s = SubscriptionSpec.from_datatypes filt cb dts)
    (hv : s.validate_spec = true) :
    ∀ d ∈ s.datatypes, d.packet_stage_assert s.level := by
  intro d hd hdp
  by_cases hl : s.level = .Packet
  · exact hl
  · exact absurd hdp (validate_no_packet hv hl d hd)

/-- Witness for C6 at a concrete validated Packet-level subscription. -/
theorem C6_packet_assert_safe_witness :
    (SubscriptionSpec.from_datatypes "f" "cb"
      [DataType.new_default_packet "Packet"]).level = Level.Packet :=
  C6_packet_assert_safe "f" "cb" [DataType.new_default_packet "Packet"] _ rfl (by decide)
    (DataType.new_default_packet "Packet") (by decide) rfl

/-- Counterexample for C3: a subscription whose `level` field is `Packet`
holding a single Connection-level datatype passes `validate_spec` even
though the §3 structural invariants as worded by the spec reject it. -/
theorem C3_counterexample :
    (SubscriptionSpec.mk [DataType.new_default_connection "Connection"] "f" "cb"
        Level.Packet).validate_spec = true
      ∧ ¬ spec_structural_invariants
          (SubscriptionSpec.mk [DataType.new_default_connection "Connection"] "f" "cb"
            Level.Packet) := by
  constructor
  · decide
  · intro h
    have h2 := (h.1 rfl).2 (DataType.new_default_connection "Connection")
      (List.mem_singleton_self _)
    rcases h2 with h2 | h2 <;> exact absurd h2 (by decide)

theorem foldl_update_static_replicate (n : Nat) :
    (List.replicate n Level.Static).foldl update_level Level.Packet = Level.Packet := by
  induction n with
  | zero => rfl
  | succ n ih =>
    rw [List.replicate_succ, List.foldl_cons]
    exact ih

/-- Claim C3 (amended): `validate_spec` succeeds iff the code's guarded
invariants hold — the Packet-level checks (exactly one Packet-level
datatype, all others Static) apply only when the subscription has more than
one datatype; a non-Packet subscription has no Packet-level datatype; at
most one datatype is Session-level. It accepts `{1 Packet, N Static}` and
`{1 Session}`, and rejects `{1 Packet, 1 Connection}` and `{2 Session}`. -/
theorem C3_validate_spec_iff_amended :
    (∀ s : SubscriptionSpec, s.validate_spec = true ↔ validate_invariants_amended s)
      ∧ (∀ n : Nat,
          (SubscriptionSpec.from_datatypes "f" "cb"
            (DataType.new_default_packet "P"
              :: List.replicate n (DataType.new_default_static "T"))).validate_spec = true)
      ∧ (SubscriptionSpec.from_datatypes "f" "cb"
          [DataType.new_default_packet "P",
            DataType.new_default_connection "C"]).validate_spec = false
      ∧ (SubscriptionSpec.from_datatypes "f" "cb"
          [DataType.new_default_session "S" []]).validate_spec = true
      ∧ (SubscriptionSpec.from_datatypes "f" "cb"
          [DataType.new_default_session "S" [],
            DataType.new_default_session "S2" []]).validate_spec = false := by
  refine ⟨?_, ?_, by decide, by decide, by decide⟩
  · intro s
    rw [validate_spec_unfold]
    constructor
    · rintro ⟨hA, hB, hC⟩
      refine ⟨?_, ?_, hC⟩
      · intro hl hlen
        obtain ⟨h1, h2⟩ := hA ((Level.isPacket_iff s.level).mpr hl) hlen
        exact ⟨h1, (static_count_iff s.datatypes h1 (by omega)).mp h2⟩
      · intro hl d hd
        have hz := hB (isPacket_false_of_ne hl)
        have := List.countP_eq_zero.mp hz d hd
        simpa [Level.isPacket_iff] using this
    · rintro ⟨hA', hB', hC⟩
      refine ⟨?_, ?_, hC⟩
      · intro hp hlen
        obtain ⟨h1, h2⟩ := hA' ((Level.isPacket_iff s.level).mp hp) hlen
        exact ⟨h1, (static_count_iff s.datatypes h1 (by omega)).mpr h2⟩
      · intro hp
        apply List.countP_eq_zero.mpr
        intro d hd
        have := hB' (level_ne_packet_of_isPacket_false hp) d hd
        simpa [Level.isPacket_iff] using this
  · intro n
    have hdts := from_datatypes_datatypes "f" "cb"
      (DataType.new_default_packet "P" :: List.replicate n (DataType.new_default_static "T"))
    have hlev := from_datatypes_level "f" "cb"
      (DataType.new_default_packet "P" :: List.replicate n (DataType.new_default_static "T"))
    have hlev2 : (SubscriptionSpec.from_datatypes "f" "cb"
        (DataType.new_default_packet "P"
          :: List.replicate n (DataType.new_default_static "T"))).level = Level.Packet := by
      rw [hlev, List.map_cons, List.map_replicate, List.foldl_cons]
      exact foldl_update_static_replicate n
    rw [validate_spec_unfold, hdts, hlev2]
    refine ⟨fun _ _ => ⟨?_, ?_⟩, fun hfalse => absurd hfalse (by simp [Level.isPacket]), ?_⟩
    · simp [List.countP_cons, List.countP_replicate, DataType.new_default_packet,
        DataType.new_default_static, Level.isPacket]
    · simp [List.countP_cons, List.countP_replicate, DataType.new_default_packet,
        DataType.new_default_static, Level.isStatic, List.length_replicate]
    · simp [List.countP_cons, List.countP_replicate, DataType.new_default_packet,
        DataType.new_default_static, Level.isSession]

theorem should_false_of_cd_false {s : SubscriptionSpec} {fl : FilterLayer} {pred : Predicate}
    {d : DataType} (hd : d ∈ s.datatypes) (hcd : d.can_deliver fl pred = false) :
    s.should_deliver fl pred = false := by
  have hall : (s.datatypes.all fun x => x.can_deliver fl pred) = false :=
    all_false_of_mem hd hcd
  simp [SubscriptionSpec.should_deliver, hall]

theorem should_false_of_sd_false {s : SubscriptionSpec} {fl : FilterLayer} {pred : Predicate}
    (h : ∀ d ∈ s.datatypes, d.should_deliver fl pred s.level = false) :
    s.should_deliver fl pred = false := by
  have hany : (s.datatypes.any fun x => x.should_deliver fl pred s.level) = false :=
    any_false_of_forall h
  simp [SubscriptionSpec.should_deliver, hany]

theorem should_true_of {s : SubscriptionSpec} {fl : FilterLayer} {pred : Predicate}
    {d : DataType} (hd : d ∈ s.datatypes)
    (hsd : d.should_deliver fl pred s.level = true)
    (hall : ∀ x ∈ s.datatypes, x.can_deliver fl pred = true) :
    s.should_deliver fl pred = true := by
  have hany : (s.datatypes.any fun x => x.should_deliver fl pred s.level) = true :=
    any_true_of_mem hd hsd
  have hall2 : (s.datatypes.all fun x => x.can_deliver fl pred) = true :=
    List.all_eq_true.mpr hall
  simp [SubscriptionSpec.should_deliver, hany, hall2]

theorem cd_at_conn_deliver (x : DataType) (pred : Predicate) :
    x.can_deliver .ConnectionDeliver pred = true := by
  rcases x with ⟨l, np, ts, nu, nur, tp, sp, str⟩
  cases l <;> rfl

theorem sd_static_nonstatic {x : DataType} {fl : FilterLayer} {pred : Predicate} {sub : Level}
    (hxl : x.level = .Static) (hsub : sub ≠ .Static) :
    x.should_deliver fl pred sub = false := by
  rcases x with ⟨l, np, ts, nu, nur, tp, sp, str⟩
  cases l
  case Static =>
    cases sub
    case Static => exact absurd rfl hsub
    all_goals rfl
  all_goals exact Level.noConfusion hxl

theorem foldl_push_perm {l1 l2 : List DataType} (hp : l1.Perm l2)
    (g : DataType → MatchingActions) (acc : MatchingActions) :
    l1.foldl (fun acc d => acc.push (g d)) acc
      = l2.foldl (fun acc d => acc.push (g d)) acc :=
  foldl_rightcomm_perm _ (fun b x y => MatchingActions.push_rightcomm b (g x) (g y)) hp acc

/-- Claim C8: `MatchingActions.push` is an associative and commutative
elementwise union, and subscriptions built from permuted datatype lists
have the same level and equal `packet_continue`, `packet_filter`,
`proto_filter` and `session_filter` results: insertion order never affects
the derived actions. -/
theorem C8_push_commutative_folds :
    (∀ a b c : MatchingActions, (a.push b).push c = a.push (b.push c))
      ∧ (∀ a b : MatchingActions, a.push b = b.push a)
      ∧ (∀ l1 l2 : List DataType, l1.Perm l2 → ∀ filt cb : String,
          (SubscriptionSpec.from_datatypes filt cb l1).level
              = (SubscriptionSpec.from_datatypes filt cb l2).level
            ∧ (SubscriptionSpec.from_datatypes filt cb l1).packet_continue
              = (SubscriptionSpec.from_datatypes filt cb l2).packet_continue
            ∧ (SubscriptionSpec.from_datatypes filt cb l1).packet_filter
              = (SubscriptionSpec.from_datatypes filt cb l2).packet_filter
            ∧ (SubscriptionSpec.from_datatypes filt cb l1).proto_filter
              = (SubscriptionSpec.from_datatypes filt cb l2).proto_filter
            ∧ (SubscriptionSpec.from_datatypes filt cb l1).session_filter
              = (SubscriptionSpec.from_datatypes filt cb l2).session_filter) := by
  refine ⟨MatchingActions.push_assoc, MatchingActions.push_comm, ?_⟩
  intro l1 l2 hp filt cb
  have hlev : (SubscriptionSpec.from_datatypes filt cb l1).level
      = (SubscriptionSpec.from_datatypes filt cb l2).level := by
    rw [from_datatypes_level, from_datatypes_level]
    exact foldl_rightcomm_perm update_level update_level_rightcomm
      (hp.map fun d => d.level) Level.Static
  refine ⟨hlev, ?_, ?_, ?_, ?_⟩
  · unfold SubscriptionSpec.packet_continue
    rw [hlev]
  · have hfold := foldl_push_perm hp
      (fun d => d.packet_filter (SubscriptionSpec.from_datatypes filt cb l2).level)
      MatchingActions.new
    simp only [SubscriptionSpec.packet_filter, from_datatypes_datatypes, hlev, hfold]
  · have hfold := foldl_push_perm hp
      (fun d => d.proto_filter (SubscriptionSpec.from_datatypes filt cb l2).level)
      MatchingActions.new
    simp only [SubscriptionSpec.proto_filter, from_datatypes_datatypes, hlev, hfold]
  · have hfold := foldl_push_perm hp
      (fun d => d.session_filter (SubscriptionSpec.from_datatypes filt cb l2).level)
      MatchingActions.new
    simp only [SubscriptionSpec.session_filter, from_datatypes_datatypes, hlev, hfold]

/-- Witness for C8 at a concrete permuted pair of datatype lists. -/
theorem C8_push_commutative_folds_witness :
    (SubscriptionSpec.from_datatypes "f" "cb"
        [DataType.new_default_session "S" [], DataType.new_default_static "T"]).level
        = (SubscriptionSpec.from_datatypes "f" "cb"
          [DataType.new_default_static "T", DataType.new_default_session "S" []]).level
      ∧ (SubscriptionSpec.from_datatypes "f" "cb"
          [DataType.new_default_session "S" [], DataType.new_default_static "T"]).packet_continue
        = (SubscriptionSpec.from_datatypes "f" "cb"
          [DataType.new_default_static "T", DataType.new_default_session "S" []]).packet_continue
      ∧ (SubscriptionSpec.from_datatypes "f" "cb"
          [DataType.new_default_session "S" [], DataType.new_default_static "T"]).packet_filter
        = (SubscriptionSpec.from_datatypes "f" "cb"
          [DataType.new_default_static "T", DataType.new_default_session "S" []]).packet_filter
      ∧ (SubscriptionSpec.from_datatypes "f" "cb"
          [DataType.new_default_session "S" [], DataType.new_default_static "T"]).proto_filter
        = (SubscriptionSpec.from_datatypes "f" "cb"
          [DataType.new_default_static "T", DataType.new_default_session "S" []]).proto_filter
      ∧ (SubscriptionSpec.from_datatypes "f" "cb"
          [DataType.new_default_session "S" [], DataType.new_default_static "T"]).session_filter
        = (SubscriptionSpec.from_datatypes "f" "cb"
          [DataType.new_default_static "T", DataType.new_default_session "S" []]).session_filter :=
  C8_push_commutative_folds.2.2 _ _
    (List.Perm.swap (DataType.new_default_static "T")
      (DataType.new_default_session "S" []) []) "f" "cb"

theorem cd_packet_char {x : DataType} (h : x.level = .Packet) (fl : FilterLayer)
    (pred : Predicate) :
    x.can_deliver fl pred = (match fl with
      | .PacketContinue => pred.on_packet
      | .Protocol => pred.on_proto || pred.on_packet
      | _ => true) := by
  rcases x with ⟨l, np, ts, nu, nur, tp, sp, str⟩
  cases l
  case Packet => cases fl <;> rfl
  all_goals exact Level.noConfusion h

theorem cd_conn_char {x : DataType} (h : x.level = .Connection) (fl : FilterLayer)
    (pred : Predicate) :
    x.can_deliver fl pred = (match fl with
      | .ConnectionDeliver => true
      | _ => false) := by
  rcases x with ⟨l, np, ts, nu, nur, tp, sp, str⟩
  cases l
  case Connection => cases fl <;> rfl
  all_goals exact Level.noConfusion h

theorem cd_session_char {x : DataType} (h : x.level = .Session) (fl : FilterLayer)
    (pred : Predicate) :
    x.can_deliver fl pred = (match fl with
      | .Session | .ConnectionDeliver => true
      | _ => false) := by
  rcases x with ⟨l, np, ts, nu, nur, tp, sp, str⟩
  cases l
  case Session => cases fl <;> rfl
  all_goals exact Level.noConfusion h

theorem cd_static_char {x : DataType} (h : x.level = .Static) (fl : FilterLayer)
    (pred : Predicate) :
    x.can_deliver fl pred = true := by
  rcases x with ⟨l, np, ts, nu, nur, tp, sp, str⟩
  cases l
  case Static => rfl
  all_goals exact Level.noConfusion h

theorem sd_packet_char {x : DataType} (h : x.level = .Packet) (fl : FilterLayer)
    (pred : Predicate) (sub : Level) :
    x.should_deliver fl pred sub = (match fl with
      | .PacketContinue => pred.on_packet
      | .Protocol => pred.on_proto
      | .Session => pred.on_session
      | .PacketDeliver => true
      | .ConnectionDeliver | .Packet => false) := by
  rcases x with ⟨l, np, ts, nu, nur, tp, sp, str⟩
  cases l
  case Packet => cases fl <;> rfl
  all_goals exact Level.noConfusion h

theorem sd_conn_char {x : DataType} (h : x.level = .Connection) (fl : FilterLayer)
    (pred : Predicate) (sub : Level) :
    x.should_deliver fl pred sub = (match fl with
      | .ConnectionDeliver => true
      | _ => false) := by
  rcases x with ⟨l, np, ts, nu, nur, tp, sp, str⟩
  cases l
  case Connection => cases fl <;> rfl
  all_goals exact Level.noConfusion h

theorem sd_session_char {x : DataType} (h : x.level = .Session) (fl : FilterLayer)
    (pred : Predicate) (sub : Level) :
    x.should_deliver fl pred sub = (match fl with
      | .Session => true
      | _ => false) := by
  rcases x with ⟨l, np, ts, nu, nur, tp, sp, str⟩
  cases l
  case Session => cases fl <;> rfl
  all_goals exact Level.noConfusion h

theorem sd_static_static {x : DataType} {pred : Predicate} {fl : FilterLayer} {sub : Level}
    (h : x.level = .Static) (hsub : sub = .Static) :
    x.should_deliver fl pred sub = (match pred.on_packet with
      | true => match fl with | .Packet => true | _ => false
      | false => match fl with | .ConnectionDeliver => true | _ => false) := by
  subst hsub
  rcases x with ⟨l, np, ts, nu, nur, tp, sp, str⟩
  cases l
  case Static => rfl
  all_goals exact Level.noConfusion h

theorem exactly_one_core (s : SubscriptionSpec) (pred : Predicate)
    (hlev : s.level = (s.datatypes.map fun d => d.level).foldl update_level Level.Static)
    (hne : s.datatypes ≠ [])
    (hcap : pred.exactly_one_layer = true) :
    (deliverStages s pred).length = 1 := by
  cases hL : s.level with
  | Connection =>
    have hfold : (s.datatypes.map fun d => d.level).foldl update_level Level.Static
        = Level.Connection := (hL.symm.trans hlev).symm
    obtain ⟨d, hdmem, hdl⟩ : ∃ d ∈ s.datatypes, d.level = Level.Connection := by
      rcases foldl_update_level_self_or_mem (s.datatypes.map fun d => d.level) Level.Static
        with h | h
      · rw [hfold] at h
        exact absurd h (by decide)
      · rw [hfold] at h
        obtain ⟨d, hd, hde⟩ := List.mem_map.mp h
        exact ⟨d, hd, hde⟩
    have hPC : s.should_deliver .PacketContinue pred = false :=
      should_false_of_cd_false hdmem (by rw [cd_conn_char hdl])
    have hPk : s.should_deliver .Packet pred = false :=
      should_false_of_cd_false hdmem (by rw [cd_conn_char hdl])
    have hPr : s.should_deliver .Protocol pred = false :=
      should_false_of_cd_false hdmem (by rw [cd_conn_char hdl])
    have hSe : s.should_deliver .Session pred = false :=
      should_false_of_cd_false hdmem (by rw [cd_conn_char hdl])
    have hCD : s.should_deliver .ConnectionDeliver pred = true :=
      should_true_of hdmem (by rw [sd_conn_char hdl])
        (fun x _ => cd_at_conn_deliver x pred)
    simp [deliverStages, delivery_stages, List.filter_cons, List.filter_nil,
      hPC, hPk, hPr, hSe, hCD]
  | Session =>
    have hfold : (s.datatypes.map fun d => d.level).foldl update_level Level.Static
        = Level.Session := (hL.symm.trans hlev).symm
    obtain ⟨d, hdmem, hdl⟩ : ∃ d ∈ s.datatypes, d.level = Level.Session := by
      rcases foldl_update_level_self_or_mem (s.datatypes.map fun d => d.level) Level.Static
        with h | h
      · rw [hfold] at h
        exact absurd h (by decide)
      · rw [hfold] at h
        obtain ⟨d, hd, hde⟩ := List.mem_map.mp h
        exact ⟨d, hd, hde⟩
    have hnoC : ∀ x ∈ s.datatypes, x.level ≠ Level.Connection := by
      intro x hx he
      have hr := rank_mem_le_foldl_update_level (s.datatypes.map fun d => d.level)
        Level.Static x.level (List.mem_map_of_mem _ hx)
      rw [hfold, he] at hr
      exact absurd hr (by decide)
    have hPC : s.should_deliver .PacketContinue pred = false :=
      should_false_of_cd_false hdmem (by rw [cd_session_char hdl])
    have hPk : s.should_deliver .Packet pred = false :=
      should_false_of_cd_false hdmem (by rw [cd_session_char hdl])
    have hPr : s.should_deliver .Protocol pred = false :=
      should_false_of_cd_false hdmem (by rw [cd_session_char hdl])
    have hSe : s.should_deliver .Session pred = true := by
      refine should_true_of hdmem (by rw [sd_session_char hdl]) ?_
      intro x hx
      cases hxl : x.level
      case Connection => exact absurd hxl (hnoC x hx)
      case Packet => exact (cd_packet_char hxl _ _).trans rfl
      case Session => exact (cd_session_char hxl _ _).trans rfl
      case Static => exact cd_static_char hxl _ _
    have hCD : s.should_deliver .ConnectionDeliver pred = false := by
      refine should_false_of_sd_false ?_
      intro x hx
      cases hxl : x.level
      case Connection => exact absurd hxl (hnoC x hx)
      case Static => exact sd_static_nonstatic hxl (by simp [hL])
      case Packet => exact (sd_packet_char hxl _ _ _).trans rfl
      case Session => exact (sd_session_char hxl _ _ _).trans rfl
    simp [deliverStages, delivery_stages, List.filter_cons, List.filter_nil,
      hPC, hPk, hPr, hSe, hCD]
  | Packet =>
    have hfold : (s.datatypes.map fun d => d.level).foldl update_level Level.Static
        = Level.Packet := (hL.symm.trans hlev).symm
    obtain ⟨d, hdmem, hdl⟩ : ∃ d ∈ s.datatypes, d.level = Level.Packet := by
      rcases foldl_update_level_self_or_mem (s.datatypes.map fun d => d.level) Level.Static
        with h | h
      · rw [hfold] at h
        exact absurd h (by decide)
      · rw [hfold] at h
        obtain ⟨d, hd, hde⟩ := List.mem_map.mp h
        exact ⟨d, hd, hde⟩
    have hnoC : ∀ x ∈ s.datatypes, x.level ≠ Level.Connection := by
      intro x hx he
      have hr := rank_mem_le_foldl_update_level (s.datatypes.map fun d => d.level)
        Level.Static x.level (List.mem_map_of_mem _ hx)
      rw [hfold, he] at hr
      exact absurd hr (by decide)
    have hnoS : ∀ x ∈ s.datatypes, x.level ≠ Level.Session := by
      intro x hx he
      have hr := rank_mem_le_foldl_update_level (s.datatypes.map fun d => d.level)
        Level.Static x.level (List.mem_map_of_mem _ hx)
      rw [hfold, he] at hr
      exact absurd hr (by decide)
    have hsub : s.level ≠ Level.Static := by simp [hL]
    have hPk : s.should_deliver .Packet pred = false := by
      refine should_false_of_sd_false ?_
      intro x hx
      cases hxl : x.level
      case Connection => exact absurd hxl (hnoC x hx)
      case Session => exact absurd hxl (hnoS x hx)
      case Static => exact sd_static_nonstatic hxl hsub
      case Packet => exact (sd_packet_char hxl _ _ _).trans rfl
    have hCD : s.should_deliver .ConnectionDeliver pred = false := by
      refine should_false_of_sd_false ?_
      intro x hx
      cases hxl : x.level
      case Connection => exact absurd hxl (hnoC x hx)
      case Session => exact absurd hxl (hnoS x hx)
      case Static => exact sd_static_nonstatic hxl hsub
      case Packet => exact (sd_packet_char hxl _ _ _).trans rfl
    rcases pred with ⟨p, q, r⟩
    cases p <;> cases q <;> cases r
    · exact absurd hcap (by decide)
    · -- only on_session: delivered at the Session stage
      have hPC : s.should_deliver .PacketContinue ⟨false, false, true⟩ = false := by
        refine should_false_of_sd_false ?_
        intro x hx
        cases hxl : x.level
        case Connection => exact absurd hxl (hnoC x hx)
        case Session => exact absurd hxl (hnoS x hx)
        case Static => exact sd_static_nonstatic hxl hsub
        case Packet => exact (sd_packet_char hxl _ _ _).trans rfl
      have hPr : s.should_deliver .Protocol ⟨false, false, true⟩ = false := by
        refine should_false_of_sd_false ?_
        intro x hx
        cases hxl : x.level
        case Connection => exact absurd hxl (hnoC x hx)
        case Session => exact absurd hxl (hnoS x hx)
        case Static => exact sd_static_nonstatic hxl hsub
        case Packet => exact (sd_packet_char hxl _ _ _).trans rfl
      have hSe : s.should_deliver .Session ⟨false, false, true⟩ = true := by
        refine should_true_of hdmem (by rw [sd_packet_char hdl]) ?_
        intro x hx
        cases hxl : x.level
        case Connection => exact absurd hxl (hnoC x hx)
        case Session => exact absurd hxl (hnoS x hx)
        case Packet => exact (cd_packet_char hxl _ _).trans rfl
        case Static => exact cd_static_char hxl _ _
      simp [deliverStages, delivery_stages, List.filter_cons, List.filter_nil,
        hPC, hPk, hPr, hSe, hCD]
    · -- only on_proto: delivered at the Protocol stage
      have hPC : s.should_deliver .PacketContinue ⟨false, true, false⟩ = false := by
        refine should_false_of_sd_false ?_
        intro x hx
        cases hxl : x.level
        case Connection => exact absurd hxl (hnoC x hx)
        case Session => exact absurd hxl (hnoS x hx)
        case Static => exact sd_static_nonstatic hxl hsub
        case Packet => exact (sd_packet_char hxl _ _ _).trans rfl
      have hPr : s.should_deliver .Protocol ⟨false, true, false⟩ = true := by
        refine should_true_of hdmem (by rw [sd_packet_char hdl]) ?_
        intro x hx
        cases hxl : x.level
        case Connection => exact absurd hxl (hnoC x hx)
        case Session => exact absurd hxl (hnoS x hx)
        case Packet => exact (cd_packet_char hxl _ _).trans rfl
        case Static => exact cd_static_char hxl _ _
      have hSe : s.should_deliver .Session ⟨false, true, false⟩ = false := by
        refine should_false_of_sd_false ?_
        intro x hx
        cases hxl : x.level
        case Connection => exact absurd hxl (hnoC x hx)
        case Session => exact absurd hxl (hnoS x hx)
        case Static => exact sd_static_nonstatic hxl hsub
        case Packet => exact (sd_packet_char hxl _ _ _).trans rfl
      simp [deliverStages, delivery_stages, List.filter_cons, List.filter_nil,
        hPC, hPk, hPr, hSe, hCD]
    · exact absurd hcap (by decide)
    · -- only on_packet: delivered at the PacketContinue stage
      have hPC : s.should_deliver .PacketContinue ⟨true, false, false⟩ = true := by
        refine should_true_of hdmem (by rw [sd_packet_char hdl]) ?_
        intro x hx
        cases hxl : x.level
        case Connection => exact absurd hxl (hnoC x hx)
        case Session => exact absurd hxl (hnoS x hx)
        case Packet => exact (cd_packet_char hxl _ _).trans rfl
        case Static => exact cd_static_char hxl _ _
      have hPr : s.should_deliver .Protocol ⟨true, false, false⟩ = false := by
        refine should_false_of_sd_false ?_
        intro x hx
        cases hxl : x.level
        case Connection => exact absurd hxl (hnoC x hx)
        case Session => exact absurd hxl (hnoS x hx)
        case Static => exact sd_static_nonstatic hxl hsub
        case Packet => exact (sd_packet_char hxl _ _ _).trans rfl
      have hSe : s.should_deliver .Session ⟨true, false, false⟩ = false := by
        refine should_false_of_sd_false ?_
        intro x hx
        cases hxl : x.level
        case Connection => exact absurd hxl (hnoC x hx)
        case Session => exact absurd hxl (hnoS x hx)
        case Static => exact sd_static_nonstatic hxl hsub
        case Packet => exact (sd_packet_char hxl _ _ _).trans rfl
      simp [deliverStages, delivery_stages, List.filter_cons, List.filter_nil,
        hPC, hPk, hPr, hSe, hCD]
    · exact absurd hcap (by decide)
    · exact absurd hcap (by decide)
    · exact absurd hcap (by decide)
  | Static =>
    have hfold : (s.datatypes.map fun d => d.level).foldl update_level Level.Static
        = Level.Static := (hL.symm.trans hlev).symm
    have hall : ∀ x ∈ s.datatypes, x.level = Level.Static := by
      intro x hx
      have hr := rank_mem_le_foldl_update_level (s.datatypes.map fun d => d.level)
        Level.Static x.level (List.mem_map_of_mem _ hx)
      rw [hfold] at hr
      cases hxl : x.level
      case Static => rfl
      all_goals rw [hxl] at hr
      all_goals exact absurd hr (by decide)
    obtain ⟨d, hdmem⟩ := List.exists_mem_of_ne_nil s.datatypes hne
    have hdl := hall d hdmem
    cases hp : pred.on_packet
    · -- predicate undecidable on the first packet: delivered at termination
      have hPC : s.should_deliver .PacketContinue pred = false := by
        refine should_false_of_sd_false ?_
        intro x hx
        rw [sd_static_static (hall x hx) hL, hp]
      have hPk : s.should_deliver .Packet pred = false := by
        refine should_false_of_sd_false ?_
        intro x hx
        rw [sd_static_static (hall x hx) hL, hp]
      have hPr : s.should_deliver .Protocol pred = false := by
        refine should_false_of_sd_false ?_
        intro x hx
        rw [sd_static_static (hall x hx) hL, hp]
      have hSe : s.should_deliver .Session pred = false := by
        refine should_false_of_sd_false ?_
        intro x hx
        rw [sd_static_static (hall x hx) hL, hp]
      have hCD : s.should_deliver .ConnectionDeliver pred = true := by
        refine should_true_of hdmem (by rw [sd_static_static hdl hL, hp]) ?_
        intro x hx
        rw [cd_static_char (hall x hx)]
      simp [deliverStages, delivery_stages, List.filter_cons, List.filter_nil,
        hPC, hPk, hPr, hSe, hCD]
    · -- predicate decidable on the first packet: delivered at the Packet stage
      have hPC : s.should_deliver .PacketContinue pred = false := by
        refine should_false_of_sd_false ?_
        intro x hx
        rw [sd_static_static (hall x hx) hL, hp]
      have hPk : s.should_deliver .Packet pred = true := by
        refine should_true_of hdmem (by rw [sd_static_static hdl hL, hp]) ?_
        intro x hx
        rw [cd_static_char (hall x hx)]
      have hPr : s.should_deliver .Protocol pred = false := by
        refine should_false_of_sd_false ?_
        intro x hx
        rw [sd_static_static (hall x hx) hL, hp]
      have hSe : s.should_deliver .Session pred = false := by
        refine should_false_of_sd_false ?_
        intro x hx
        rw [sd_static_static (hall x hx) hL, hp]
      have hCD : s.should_deliver .ConnectionDeliver pred = false := by
        refine should_false_of_sd_false ?_
        intro x hx
        rw [sd_static_static (hall x hx) hL, hp]
      simp [deliverStages, delivery_stages, List.filter_cons, List.filter_nil,
        hPC, hPk, hPr, hSe, hCD]

/-- Counterexample for C1: a validated one-datatype Packet-level
subscription built through the lifecycle, with a predicate evaluable at
both the packet and protocol granularities, has `should_deliver` true at
two of the five decision stages. -/
theorem C1_counterexample :
    (SubscriptionSpec.from_datatypes "f" "cb"
        [DataType.new_default_packet "Packet"]).validate_spec = true
      ∧ (deliverStages
          (SubscriptionSpec.from_datatypes "f" "cb" [DataType.new_default_packet "Packet"])
          (Predicate.mk true true false)).length ≠ 1 := by
  constructor
  · decide
  · decide

/-- Claim C1 (amended): for every subscription built by `new` followed by at
least one `add_datatype` that passes `validate_spec`, and every predicate
evaluable at exactly one granularity, `should_deliver` is true for exactly
one stage of `[PacketContinue, Packet, Protocol, Session,
ConnectionDeliver]`. -/
theorem C1_exactly_one_delivery_stage (filt cb : String) (dts : List DataType)
    (pred : Predicate) (hne : dts ≠ [])
    (_hval : (SubscriptionSpec.from_datatypes filt cb dts).validate_spec = true)
    (hcap : pred.exactly_one_layer = true) :
    (deliverStages (SubscriptionSpec.from_datatypes filt cb dts) pred).length = 1 := by
  apply exactly_one_core
  · rw [from_datatypes_level, from_datatypes_datatypes]
  · rw [from_datatypes_datatypes]
    exact hne
  · exact hcap

/-- Witness for C1 at a concrete validated Connection-level subscription. -/
theorem C1_exactly_one_delivery_stage_witness :
    ([DataType.new_default_connection "C"] ≠ ([] : List DataType))
      ∧ (SubscriptionSpec.from_datatypes "f" "cb"
          [DataType.new_default_connection "C"]).validate_spec = true
      ∧ (Predicate.mk false false true).exactly_one_layer = true
      ∧ (deliverStages
          (SubscriptionSpec.from_datatypes "f" "cb" [DataType.new_default_connection "C"])
          (Predicate.mk false false true)).length = 1 :=
  ⟨by decide, by decide, by decide,
    C1_exactly_one_delivery_stage "f" "cb" _ _ (by decide) (by decide) (by decide)⟩

end Retina
